import Mathlib

/-!
Shallow embedding of the market-data acquisition pipeline of the
FINAL-FINANTIAL-HELPER repository (Python).  The definitions below mirror,
function by function, the relevant source code:

* src/data.py — DataManager: the SQLite market_data table with its
  UNIQUE(symbol, date, data_type) constraint, INSERT OR REPLACE writes and
  the ORDER BY date ASC read path;
* src/api_integrations/alpha_vantage.py — AlphaVantageAPI: rate limiting,
  file cache, cache-key derivation, the get_stock_data fallback chain and
  the payload normalizer;
* src/api_integrations/b3_api.py — B3API: rate limiting, file cache, the
  SQLite b3_stocks table (appended to through pandas to_sql), the
  get_stock_data fallback chain, the HTML-scrape secondary and the
  normalizer.

Modelling conventions:
* wall-clock instants and durations are rationals (seconds for the rate
  limiter, hours for cache ages), matching Python's real-valued datetimes;
* a SQLite table is a list of rows in rowid (insertion) order;
* a JSON payload is embedded structurally at the depth the code inspects;
  dates stay ISO "YYYY-MM-DD" strings, whose lexicographic order coincides
  with the chronological order pandas sorts by;
* a Python function that returns None on failure returns an Option.
-/

namespace FinBot

/-- Byte-wise lexicographic order on strings as character lists: this is
SQLite's BINARY collation used by ORDER BY / BETWEEN on the TEXT date
column (UTF-8 byte order coincides with code-point order), and on ISO
dates it coincides with chronological order. -/
def charListLE : List Char → List Char → Bool
  | [], _ => true
  | _ :: _, [] => false
  | a :: as, b :: bs =>
    if a.toNat < b.toNat then true
    else if b.toNat < a.toNat then false
    else charListLE as bs

/-- String comparison through charListLE. -/
def strLE (a b : String) : Bool := charListLE a.data b.data

/-- Python str.lower() (for the ASCII interval names the code passes). -/
def strToLower (s : String) : String := ⟨s.data.map Char.toLower⟩

/-- Python str.upper() (for the ASCII ticker symbols the code passes). -/
def strToUpper (s : String) : String := ⟨s.data.map Char.toUpper⟩

/-- One row of the market_data / b3_stocks time-series tables (OHLCV plus
metadata columns); prices are nullable in the SQL schema, volume defaults
to 0 via row.get('Volume', 0). -/
structure MarketRow where
  symbol : String
  market : String
  date : String
  open_price : Option ℚ
  high : Option ℚ
  low : Option ℚ
  close : Option ℚ
  volume : ℚ
  data_type : String
  last_updated : String
deriving DecidableEq, Repr

/-- The uniqueness key of market_data rows: UNIQUE(symbol, date, data_type)
(src/data.py line 72). -/
def marketKey (r : MarketRow) : String × String × String :=
  (r.symbol, r.date, r.data_type)

/-- INSERT OR REPLACE of one row into market_data: SQLite deletes any row
carrying the same (symbol, date, data_type) key and inserts the new row
with a fresh rowid (DataManager._store_market_data, src/data.py
lines 421-427). -/
def insertOrReplaceMarketRow (db : List MarketRow) (r : MarketRow) : List MarketRow :=
  db.filter (fun q => !(decide (marketKey q = marketKey r))) ++ [r]

/-- DataManager._store_market_data: iterates the fetched DataFrame and
performs one INSERT OR REPLACE per row (src/data.py lines 397-433). -/
def store_market_data (db : List MarketRow) (rows : List MarketRow) : List MarketRow :=
  rows.foldl insertOrReplaceMarketRow db

/-- B3API._save_to_database: pandas to_sql(table, conn, if_exists="append")
appends every row of the DataFrame; the b3_stocks table declares no
uniqueness constraint (src/api_integrations/b3_api.py lines 304-329 and
97-111). -/
def save_to_database (db : List MarketRow) (rows : List MarketRow) : List MarketRow :=
  db ++ rows

/-- Sorting a row list by the date column, as ORDER BY date ASC and
pandas sort do on the ISO date strings. -/
def sortByDate (l : List MarketRow) : List MarketRow :=
  l.insertionSort (fun a b => strLE a.date b.date = true)

theorem charListLE_total (a b : List Char) :
    charListLE a b = true ∨ charListLE b a = true := by
  induction a generalizing b with
  | nil => left; rfl
  | cons x as ih =>
    cases b with
    | nil => right; rfl
    | cons y bs =>
      rcases Nat.lt_trichotomy x.toNat y.toNat with h | h | h
      · left; simp [charListLE, h]
      · rcases ih bs with h' | h' <;> [left; right] <;>
          simp [charListLE, h, h', Nat.lt_irrefl]
      · right; simp [charListLE, h]

theorem charListLE_trans (a b c : List Char)
    (hab : charListLE a b = true) (hbc : charListLE b c = true) :
    charListLE a c = true := by
  induction a generalizing b c with
  | nil => rfl
  | cons x as ih =>
    cases b with
    | nil => simp [charListLE] at hab
    | cons y bs =>
      cases c with
      | nil => simp [charListLE] at hbc
      | cons z cs =>
        simp only [charListLE] at hab hbc ⊢
        split at hab
        · rename_i hxy
          split at hbc
          · rename_i hyz
            rw [if_pos (by omega)]
          · split at hbc
            · simp at hbc
            · rename_i hyz hzy
              rw [if_pos (by omega)]
        · split at hab
          · simp at hab
          · rename_i hxy hyx
            split at hbc
            · rename_i hyz
              rw [if_pos (by omega)]
            · split at hbc
              · simp at hbc
              · rename_i hyz hzy
                rw [if_neg (by omega), if_neg (by omega)]
                exact ih bs cs hab hbc

instance : IsTotal MarketRow (fun a b => strLE a.date b.date = true) :=
  ⟨fun a b => charListLE_total a.date.data b.date.data⟩

instance : IsTrans MarketRow (fun a b => strLE a.date b.date = true) :=
  ⟨fun _ _ _ h h' => charListLE_trans _ _ _ h h'⟩


/-- DataManager.get_cached_market_data: SELECT * FROM market_data WHERE
symbol, market and data_type match AND date BETWEEN start AND end
ORDER BY date ASC; an empty result set is reported as None
(src/data.py lines 435-478). -/
def get_cached_market_data (db : List MarketRow) (symbol market data_type : String)
    (start_date end_date : String) : Option (List MarketRow) :=
  let rows := sortByDate (db.filter (fun r =>
    decide (r.symbol = symbol) && decide (r.market = market) &&
    decide (r.data_type = data_type) &&
    strLE start_date r.date && strLE r.date end_date))
  if rows.isEmpty then none else some rows

/-- B3API._load_from_database on the b3_stocks table: SELECT * with optional
WHERE clauses on symbol / date range and no ORDER BY, so rows come back in
rowid (insertion) order.  A parameter that is None or an empty string
(falsy in Python) contributes no clause
(src/api_integrations/b3_api.py lines 331-374). -/
def load_from_database (db : List MarketRow) (symbol start_date end_date : Option String) :
    List MarketRow :=
  db.filter (fun r =>
    (match symbol with
     | some s => decide (s = "") || decide (r.symbol = s)
     | none => true) &&
    (match start_date with
     | some d => decide (d = "") || strLE d r.date
     | none => true) &&
    (match end_date with
     | some d => decide (d = "") || strLE r.date d
     | none => true))

/-- The max_age_hours argument of _load_from_cache: a rational number of
hours, or the float('inf') passed by the stale-read call sites. -/
inductive MaxAgeHours
  | fin (h : ℚ)
  | inf
deriving DecidableEq, Repr

/-- AlphaVantageAPI._load_from_cache and B3API._load_from_cache (their
bodies are identical): return the stored payload when an entry exists and
age = now - capture_timestamp satisfies age ≤ max_age_hours, None
otherwise.  When a caller passes max_age_hours = float('inf'), Python
raises OverflowError while constructing timedelta(hours=inf); the blanket
except clause turns that into None, so the ignore-age mode always reports
a miss (src/api_integrations/alpha_vantage.py lines 172-204,
src/api_integrations/b3_api.py lines 270-302). -/
def load_from_cache {α : Type} (entry : Option (ℚ × α)) (now : ℚ) :
    MaxAgeHours → Option α
  | .fin h =>
    match entry with
    | none => none
    | some (ts, payload) => if now - ts > h then none else some payload
  | .inf => none

/-- os.path.join for the dir/filename shape both clients use. -/
def pathJoin (dir filename : String) : String := dir ++ "/" ++ filename

/-- AlphaVantageAPI._get_cache_path: filename "{symbol}_{function}", then
"_{interval}" and "_{outputsize}" when those arguments are given and
non-empty (Python truthiness), then ".json", joined onto the cache
directory (src/api_integrations/alpha_vantage.py lines 121-142). -/
def av_get_cache_path (cacheDir function symbol : String)
    (interval outputsize : Option String) : String :=
  let filename := symbol ++ "_" ++ function
  let filename := match interval with
    | some i => if i = "" then filename else filename ++ "_" ++ i
    | none => filename
  let filename := match outputsize with
    | some o => if o = "" then filename else filename ++ "_" ++ o
    | none => filename
  pathJoin cacheDir (filename ++ ".json")

/-- get_forex_data derives the cache symbol by concatenating the currency
codes (src/api_integrations/alpha_vantage.py line 365). -/
def av_forex_symbol (from_currency to_currency : String) : String :=
  from_currency ++ to_currency

/-- B3API._get_cache_path: filename "{symbol}_{data_type}.json" joined onto
the cache directory (src/api_integrations/b3_api.py lines 226-240). -/
def b3_get_cache_path (cacheDir data_type symbol : String) : String :=
  pathJoin cacheDir (symbol ++ "_" ++ data_type ++ ".json")

/-- Rate-limiter state of one provider instance: the api_calls counter and
the api_call_reset_time window-start timestamp, in seconds. -/
structure RateState where
  api_calls : ℕ
  reset_time : ℚ
deriving DecidableEq, Repr

/-- The rate-limiting critical section of _make_api_request (identical in
AlphaVantageAPI, where maxCalls = 5, and B3API, where maxCalls = 10),
executed under api_lock with entry instant now: lazily reset the window if
it is at least 60 s old; if the counter has reached the ceiling, sleep for
wait = 60 - (now - reset_time) when positive, then reset counter and
window to the wake-up instant; finally count the call.  The first
component of the result is the instant at which the provider request
proceeds (src/api_integrations/alpha_vantage.py lines 78-97,
src/api_integrations/b3_api.py lines 177-196). -/
def acquire (maxCalls : ℕ) (s : RateState) (now : ℚ) : ℚ × RateState :=
  let s := if now - s.reset_time ≥ 60 then { api_calls := 0, reset_time := now } else s
  let p :=
    if s.api_calls ≥ maxCalls then
      let wait := 60 - (now - s.reset_time)
      if wait > 0 then (now + wait, ({ api_calls := 0, reset_time := now + wait } : RateState))
      else (now, s)
    else (now, s)
  (p.1, { p.2 with api_calls := p.2.api_calls + 1 })

/-- Sequential callers funnelling through api_lock (the sleep happens while
the lock is held): caller i enters the critical section at the later of its
arrival time and the previous caller's exit time.  Returns the list of
instants at which the provider requests are issued. -/
def runCalls (maxCalls : ℕ) : RateState → ℚ → List ℚ → List ℚ
  | _, _, [] => []
  | s, t, a :: rest =>
    let e := acquire maxCalls s (max t a)
    e.1 :: runCalls maxCalls e.2 e.1 rest

/-- Number of issued calls that fall inside the rolling 60-second window
starting at t. -/
def windowCount (issues : List ℚ) (t : ℚ) : ℕ :=
  (issues.filter (fun x => decide (t ≤ x) && decide (x < t + 60))).length

/-- Substring test on character lists: needle occurs contiguously in hay
(models Python's "Time Series" in key). -/
def containsSub (needle hay : List Char) : Bool :=
  hay.tails.any (fun t => needle.isPrefixOf t)

/-- One decoded daily bar of an Alpha Vantage time series.  The raw
provider column labels ("1. open", "2. high", ...) that _parse_stock_data
strips and lowercases are decoded into the fields directly. -/
structure AVBar where
  open_price : ℚ
  high : ℚ
  low : ℚ
  close : ℚ
  volume : ℚ
deriving DecidableEq, Repr

/-- A top-level Alpha Vantage JSON object: ordered key/value pairs whose
values are date-indexed bar maps. -/
structure AVPayload where
  entries : List (String × List (String × AVBar))
deriving DecidableEq, Repr

/-- AlphaVantageAPI._parse_stock_data: take the first top-level key that
contains "Time Series" as a substring; fail (None) when there is none;
otherwise build one canonical record per date, sorted by date
(df.sort_index), stamped market="US", data_type="stock" and the fetch
timestamp (src/api_integrations/alpha_vantage.py lines 270-338). -/
def av_parse_stock_data (d : AVPayload) (symbol nowIso : String) :
    Option (List MarketRow) :=
  match d.entries.find? (fun kv => containsSub "Time Series".data kv.1.data) with
  | none => none
  | some kv =>
    some (sortByDate (kv.2.map (fun db =>
      { symbol := symbol, market := "US", date := db.1,
        open_price := some db.2.open_price, high := some db.2.high,
        low := some db.2.low, close := some db.2.close,
        volume := db.2.volume, data_type := "stock",
        last_updated := nowIso })))

/-- The interval → API-function map of AlphaVantageAPI.get_stock_data
(src/api_integrations/alpha_vantage.py lines 221-225). -/
def av_function_map : List (String × String) :=
  [("daily", "TIME_SERIES_DAILY"), ("weekly", "TIME_SERIES_WEEKLY"),
   ("monthly", "TIME_SERIES_MONTHLY")]

/-- function_map.get(interval.lower(), "TIME_SERIES_DAILY")
(src/api_integrations/alpha_vantage.py line 227). -/
def av_select_function (interval : String) : String :=
  (av_function_map.lookup (strToLower interval)).getD "TIME_SERIES_DAILY"

/-- The pieces of the outside world one AlphaVantageAPI.get_stock_data call
can observe or mutate: the cache-directory contents (path ↦ capture time
and raw payload), the outcome the live API call would produce (None models
a network error, a non-200 status, or an "Error Message" body), the wall
clock in hours and its ISO rendering.  The rate limiter only delays the
live call, so it is modelled separately by acquire/runCalls. -/
structure AVEnv where
  cache : String → Option (ℚ × AVPayload)
  api : Option AVPayload
  now : ℚ
  nowIso : String

/-- AlphaVantageAPI._save_to_cache: write {timestamp: now, data: payload}
to the cache file at path (src/api_integrations/alpha_vantage.py
lines 144-170). -/
def av_save_to_cache (env : AVEnv) (path : String) (d : AVPayload) : AVEnv :=
  { env with cache := fun p => if p = path then some (env.now, d) else env.cache p }

/-- AlphaVantageAPI.get_stock_data (src/api_integrations/alpha_vantage.py
lines 206-268): fresh-cache tier (when use_cache), live API call,
stale-cache tier with max_age_hours = float('inf') (when use_cache), else
None; a successful live payload is written to the cache (when use_cache)
and parsed.  Returns the result and the final environment. -/
def av_get_stock_data (env : AVEnv) (cacheDir symbol interval outputsize : String)
    (use_cache : Bool) (max_cache_age_hours : ℚ) : Option (List MarketRow) × AVEnv :=
  let fn := av_select_function interval
  let path := av_get_cache_path cacheDir fn symbol (some interval) (some outputsize)
  match (if use_cache then load_from_cache (env.cache path) env.now (.fin max_cache_age_hours)
         else none) with
  | some cached => (av_parse_stock_data cached symbol env.nowIso, env)
  | none =>
    match env.api with
    | none =>
      match (if use_cache then load_from_cache (env.cache path) env.now .inf else none) with
      | some cached => (av_parse_stock_data cached symbol env.nowIso, env)
      | none => (none, env)
    | some d =>
      let env := if use_cache then av_save_to_cache env path d else env
      (av_parse_stock_data d symbol env.nowIso, env)

/-- One quote of the B3 JSON body at TradgFlr.scty.SctyQtn; the .get
defaults of _parse_stock_data (0 for missing prices/volume) are already
applied. -/
structure B3Quote where
  date : String
  opnPric : ℚ
  maxPric : ℚ
  minPric : ℚ
  closPric : ℚ
  tradQty : ℚ
deriving DecidableEq, Repr

/-- A B3 JSON body that passed get_stock_data's "TradgFlr" key check;
sctyQtn is the TradgFlr.scty.SctyQtn list when that nested path exists
(when it does not, _parse_stock_data hits a KeyError and returns None). -/
structure B3Payload where
  sctyQtn : Option (List B3Quote)
deriving DecidableEq, Repr

/-- Outcome of B3API._make_api_request as classified by get_stock_data:
bad covers data None (network error / non-200), a non-dict body (plain
text), and a dict without the "TradgFlr" key. -/
inductive B3ApiResult
  | bad
  | good (payload : B3Payload)
deriving DecidableEq, Repr

/-- B3API._parse_stock_data: read TradgFlr.scty.SctyQtn (KeyError → None),
fail on an empty quote list ("No quotes found"), otherwise build one
record per quote stamped market="BR", data_type="stock" and the fetch
timestamp, sorted by date (df.sort_values("date"))
(src/api_integrations/b3_api.py lines 546-608). -/
def b3_parse_stock_data (payload : B3Payload) (symbol nowIso : String) :
    Option (List MarketRow) :=
  match payload.sctyQtn with
  | none => none
  | some [] => none
  | some quotes =>
    some (sortByDate (quotes.map (fun q =>
      { symbol := symbol, market := "BR", date := q.date,
        open_price := some q.opnPric, high := some q.maxPric,
        low := some q.minPric, close := some q.closPric,
        volume := q.tradQty, data_type := "stock",
        last_updated := nowIso })))

/-- The pieces of the outside world one B3API.get_stock_data call can
observe or mutate: the cache-directory contents (path ↦ capture time and
the cached record list, since B3 caches parsed_data.to_dict("records")),
the b3_stocks table, the live JSON API outcome, the outcome of the
HTML-scrape secondary (None models a non-200 page, a missing price table
or a scraping exception; some qs models the synthesized
TradgFlr.scty.SctyQtn list), the wall clock in hours and its ISO
rendering. -/
structure B3Env where
  cache : String → Option (ℚ × List MarketRow)
  db : List MarketRow
  api : B3ApiResult
  scrape : Option (List B3Quote)
  now : ℚ
  nowIso : String

/-- B3API._save_to_cache: write {timestamp: now, data: records} to the
cache file at path (src/api_integrations/b3_api.py lines 242-268). -/
def b3_save_to_cache (env : B3Env) (path : String) (rows : List MarketRow) : B3Env :=
  { env with cache := fun p => if p = path then some (env.now, rows) else env.cache p }

/-- The tail of B3API.get_stock_data once live data (JSON or scraped) is in
hand (src/api_integrations/b3_api.py lines 462-477): parse; on parse
failure return None; otherwise write through to the cache file (when
use_cache) and append to the b3_stocks table, then return the records. -/
def b3_write_through (env : B3Env) (path symbol : String) (payload : B3Payload)
    (use_cache : Bool) : Option (List MarketRow) × B3Env :=
  match b3_parse_stock_data payload symbol env.nowIso with
  | none => (none, env)
  | some rows =>
    let env := if use_cache then b3_save_to_cache env path rows else env
    let env := { env with db := save_to_database env.db rows }
    (some rows, env)

/-- B3API.get_stock_data (src/api_integrations/b3_api.py lines 400-477):
uppercase the symbol; fresh-cache tier (when use_cache, returning the
cached records as a DataFrame); b3_stocks query tier (non-empty result
returned directly); live JSON API tier; HTML-scrape tier; stale-cache tier
with max_age_hours = float('inf') (when use_cache); else None.  Live data
is parsed and written through by b3_write_through. -/
def b3_get_stock_data (env : B3Env) (cacheDir symbol0 : String)
    (start_date end_date : Option String) (use_cache : Bool)
    (max_cache_age_hours : ℚ) : Option (List MarketRow) × B3Env :=
  let symbol := strToUpper symbol0
  let path := b3_get_cache_path cacheDir "stocks" symbol
  match (if use_cache then load_from_cache (env.cache path) env.now (.fin max_cache_age_hours)
         else none) with
  | some rows => (some rows, env)
  | none =>
    let db_data := load_from_database env.db (some symbol) start_date end_date
    if db_data.isEmpty then
      match env.api with
      | .good payload => b3_write_through env path symbol payload use_cache
      | .bad =>
        match env.scrape with
        | some quotes => b3_write_through env path symbol ⟨some quotes⟩ use_cache
        | none =>
          match (if use_cache then load_from_cache (env.cache path) env.now .inf else none) with
          | some rows => (some rows, env)
          | none => (none, env)
    else (some db_data, env)

/-! ### Concrete rows and environments used by counterexamples and witnesses -/

/-- A sample canonical record (a B3 stock quote). -/
def sampleRow : MarketRow :=
  ⟨"PETR4", "BR", "2024-01-02", some 1, some 2, some 1, some 2, 100, "stock", "t0"⟩

/-- A b3_stocks row dated 2024-01-02, inserted before rowJan1. -/
def rowJan2 : MarketRow :=
  ⟨"PETR4", "BR", "2024-01-02", some 1, some 1, some 1, some 1, 0, "stock", "t0"⟩

/-- A b3_stocks row dated 2024-01-01, inserted after rowJan2. -/
def rowJan1 : MarketRow :=
  ⟨"PETR4", "BR", "2024-01-01", some 1, some 1, some 1, some 1, 0, "stock", "t0"⟩

/-! ### C1 — upsert idempotence of the persistence paths -/

/-- C1 counterexample: B3API._save_to_database is not an idempotent upsert.
Saving the same canonical record twice (as two consecutive fetches of the
same day do) leaves the b3_stocks table with two rows carrying the same
(symbol, date, data_type) key, not one. -/
theorem b3_save_to_database_duplicates :
    ((save_to_database (save_to_database [] [sampleRow]) [sampleRow]).filter
      (fun q => decide (marketKey q = marketKey sampleRow))).length = 2 ∧
    ¬ ((save_to_database (save_to_database [] [sampleRow]) [sampleRow]).filter
      (fun q => decide (marketKey q = marketKey sampleRow))).length = 1 := by
  constructor <;> decide

/-- C1 (amended): in the DataManager path the upsert is idempotent — after
storing a record (twice or once), market_data holds exactly one row for
its (symbol, date, data_type) key, carrying the latest values; the
B3API._save_to_database path instead appends and duplicates. -/
theorem store_market_data_idempotent (db : List MarketRow) (r : MarketRow) :
    store_market_data (store_market_data db [r]) [r] = store_market_data db [r] ∧
    (store_market_data db [r]).filter
      (fun q => decide (marketKey q = marketKey r)) = [r] := by
  constructor
  · simp [store_market_data, insertOrReplaceMarketRow, List.filter_append,
      List.filter_filter]
  · simp [store_market_data, insertOrReplaceMarketRow, List.filter_append,
      List.filter_filter]

/-! ### C8 — date ordering of the persistent-store query paths -/

/-- C8 counterexample: B3API._load_from_database has no ORDER BY clause, so
a table whose rows were appended newer-date-first is returned in that
insertion order, which is not ascending by date. -/
theorem b3_load_from_database_not_date_ordered :
    load_from_database [rowJan2, rowJan1] (some "PETR4") none none = [rowJan2, rowJan1] ∧
    ¬ List.Pairwise (fun a b : MarketRow => strLE a.date b.date = true)
      [rowJan2, rowJan1] := by
  constructor
  · decide
  · intro h
    exact absurd ((List.pairwise_cons.mp h).1 rowJan1 (by simp)) (by decide)

/-- C8 (amended): DataManager.get_cached_market_data returns its rows
ordered by date ascending (ORDER BY date ASC); B3API._load_from_database
returns a subsequence of the table in insertion order, with no date
ordering guarantee. -/
theorem market_data_query_date_ordered (db : List MarketRow)
    (symbol market data_type sd ed : String) (s d1 d2 : Option String) :
    (∀ rows, get_cached_market_data db symbol market data_type sd ed = some rows →
      List.Pairwise (fun a b => strLE a.date b.date = true) rows) ∧
    List.Sublist (load_from_database db s d1 d2) db := by
  constructor
  · intro rows h
    simp only [get_cached_market_data] at h
    split at h
    · exact absurd h (by simp)
    · injection h with h
      subst h
      exact List.sorted_insertionSort _ _
  · exact List.filter_sublist _

/-- C8 witness: the amended theorem applied to the concrete two-row table;
the DataManager query flips the rows into date order. -/
theorem market_data_query_date_ordered_witness :
    get_cached_market_data [rowJan2, rowJan1] "PETR4" "BR" "stock"
      "2024-01-01" "2024-12-31" = some [rowJan1, rowJan2] ∧
    List.Pairwise (fun a b => strLE a.date b.date = true) [rowJan1, rowJan2] ∧
    List.Sublist (load_from_database [rowJan2, rowJan1] (some "PETR4") none none)
      [rowJan2, rowJan1] :=
  ⟨by decide,
   (market_data_query_date_ordered [rowJan2, rowJan1] "PETR4" "BR" "stock"
      "2024-01-01" "2024-12-31" (some "PETR4") none none).1 _ (by decide),
   (market_data_query_date_ordered [rowJan2, rowJan1] "PETR4" "BR" "stock"
      "2024-01-01" "2024-12-31" (some "PETR4") none none).2⟩

/-! ### C4 — cache load TTL boundary -/

/-- C4: for an existing cache entry and a finite max_age H, _load_from_cache
returns the stored payload iff age = now - capture_timestamp ≤ H (the
boundary age == H is a hit, because the code rejects only age > H), and
reports absent (None, not an error) exactly when age > H.  This covers both
AlphaVantageAPI._load_from_cache and B3API._load_from_cache, whose bodies
are identical. -/
theorem load_from_cache_boundary {α : Type} (ts : ℚ) (payload : α) (now h : ℚ) :
    (load_from_cache (some (ts, payload)) now (.fin h) = some payload ↔ now - ts ≤ h) ∧
    (load_from_cache (some (ts, payload)) now (.fin h) = none ↔ h < now - ts) := by
  simp only [load_from_cache]
  by_cases hgt : now - ts > h
  · rw [if_pos hgt]
    exact ⟨by simp [not_le.mpr hgt], by simp [hgt]⟩
  · rw [if_neg hgt]
    exact ⟨by simp [not_lt.mp hgt], by simp [not_lt.mp hgt, not_lt_of_le]⟩

/-! ### C5 — cache key derivation -/

/-- C5 counterexample: cache-key derivation is not injective.  Left: two
distinct (symbol, interval) pairs of the stock family produce the same
file; right: a stock-family request and a treasury-family request (which
passes the maturity in the symbol slot and no outputsize) produce the same
file. -/
theorem av_cache_path_collision :
    (av_get_cache_path "cache" "TIME_SERIES_DAILY" "A"
        (some "B_TIME_SERIES_DAILY_C") (some "D") =
      av_get_cache_path "cache" "TIME_SERIES_DAILY" "A_TIME_SERIES_DAILY_B"
        (some "C") (some "D") ∧
      ("A", "B_TIME_SERIES_DAILY_C") ≠ ("A_TIME_SERIES_DAILY_B", "C")) ∧
    (av_get_cache_path "cache" "TIME_SERIES_DAILY" "A" (some "daily")
        (some "TREASURY_YIELD_daily") =
      av_get_cache_path "cache" "TREASURY_YIELD" "A_TIME_SERIES_DAILY_daily"
        (some "daily") none ∧
      ("TIME_SERIES_DAILY" : String) ≠ "TREASURY_YIELD") :=
  ⟨⟨by decide, by decide⟩, by decide, by decide⟩

/-- Cutting a character list at a separator character that occurs in
neither prefix is unambiguous. -/
theorem append_sep_inj {x y : List Char} : ∀ (a b : List Char),
    '_' ∉ a → '_' ∉ b → a ++ '_' :: x = b ++ '_' :: y → a = b ∧ x = y := by
  intro a
  induction a with
  | nil =>
    intro b _ hb h
    cases b with
    | nil => simpa using h
    | cons c bs =>
      rw [List.nil_append, List.cons_append] at h
      obtain ⟨h1, _⟩ := List.cons.inj h
      exact absurd (h1 ▸ List.mem_cons_self c bs) hb
  | cons c as ih =>
    intro b ha hb h
    cases b with
    | nil =>
      rw [List.cons_append, List.nil_append] at h
      obtain ⟨h1, _⟩ := List.cons.inj h
      exact absurd (h1 ▸ List.mem_cons_self c as) ha
    | cons d bs =>
      rw [List.cons_append, List.cons_append] at h
      obtain ⟨h1, h2⟩ := List.cons.inj h
      obtain ⟨hab, hxy⟩ := ih bs (fun hm => ha (List.mem_cons_of_mem c hm))
        (fun hm => hb (List.mem_cons_of_mem d hm)) h2
      exact ⟨by rw [h1, hab], hxy⟩

/-- Strings with equal character lists are equal. -/
theorem string_data_inj {s t : String} (h : s.data = t.data) : s = t := by
  cases s; cases t; exact congrArg String.mk h

/-- C5 (amended): key derivation is deterministic (it is a pure function of
the parameters), and it is collision-free on the parameter tuples whose
components are non-empty and do not contain the underscore separator; for
underscore-containing parameters distinct tuples can collide, within a
family and across families. -/
theorem av_cache_path_injective (cacheDir f1 s1 i1 o1 f2 s2 i2 o2 : String)
    (hf1 : '_' ∉ f1.data) (hs1 : '_' ∉ s1.data) (hi1 : '_' ∉ i1.data)
    (hf2 : '_' ∉ f2.data) (hs2 : '_' ∉ s2.data) (hi2 : '_' ∉ i2.data)
    (hi1e : i1 ≠ "") (ho1e : o1 ≠ "") (hi2e : i2 ≠ "") (ho2e : o2 ≠ "")
    (h : av_get_cache_path cacheDir f1 s1 (some i1) (some o1) =
      av_get_cache_path cacheDir f2 s2 (some i2) (some o2)) :
    f1 = f2 ∧ s1 = s2 ∧ i1 = i2 ∧ o1 = o2 := by
  simp only [av_get_cache_path, pathJoin, if_neg hi1e, if_neg ho1e, if_neg hi2e,
    if_neg ho2e] at h
  have h' := congrArg String.data h
  simp only [String.data_append, List.append_assoc, List.singleton_append,
    List.cons_append] at h'
  have h1 := List.append_cancel_left h'
  obtain ⟨hsl, h2⟩ := List.cons.inj h1
  obtain ⟨hs, h3⟩ := append_sep_inj s1.data s2.data hs1 hs2 h2
  obtain ⟨hf, h4⟩ := append_sep_inj f1.data f2.data hf1 hf2 h3
  obtain ⟨hi, h5⟩ := append_sep_inj i1.data i2.data hi1 hi2 h4
  simp only [List.nil_append] at h5
  have ho := List.append_cancel_right h5
  exact ⟨string_data_inj hf, string_data_inj hs, string_data_inj hi,
    string_data_inj ho⟩

/-- C5 witness: the injectivity theorem applied to a concrete
underscore-free request tuple of the stock family. -/
theorem av_cache_path_injective_witness :
    ("daily" : String) ≠ "" ∧
    av_get_cache_path "cache" "DAILY" "IBM" (some "daily") (some "full") =
      av_get_cache_path "cache" "DAILY" "IBM" (some "daily") (some "full") ∧
    (("DAILY" : String) = "DAILY" ∧ ("IBM" : String) = "IBM" ∧
      ("daily" : String) = "daily" ∧ ("full" : String) = "full") :=
  ⟨by decide, rfl,
   av_cache_path_injective "cache" "DAILY" "IBM" "daily" "full" "DAILY" "IBM"
     "daily" "full" (by decide) (by decide) (by decide) (by decide) (by decide)
     (by decide) (by decide) (by decide) (by decide) (by decide) rfl⟩

/-! ### C2 — rate limiter -/

/-- C2 counterexample: with the Alpha Vantage ceiling of 5 calls per minute
and a limiter created at instant 0, five callers arriving at t = 59 s and
five at t = 61 s are all admitted without sleeping (the second five right
after the lazy window reset), so the rolling 60-second window starting at
t = 59 contains 10 provider calls — twice the ceiling the claim asserts
for every rolling window. -/
theorem rate_limiter_rolling_window_exceeded :
    runCalls 5 ⟨0, 0⟩ 0 [59, 59, 59, 59, 59, 61, 61, 61, 61, 61] =
      [59, 59, 59, 59, 59, 61, 61, 61, 61, 61] ∧
    windowCount [59, 59, 59, 59, 59, 61, 61, 61, 61, 61] 59 = 10 ∧
    ¬ windowCount [59, 59, 59, 59, 59, 61, 61, 61, 61, 61] 59 ≤ 5 :=
  ⟨by norm_num [runCalls, acquire], by norm_num [windowCount],
   by norm_num [windowCount]⟩

/-- C2 (amended): the api_calls counter never exceeds the per-provider
ceiling after any acquisition (the window being reset lazily on the first
call after expiry, and the counter being reset after any in-window wait);
the rolling-window form of the bound fails, since a window spanning a lazy
reset can contain up to twice the ceiling. -/
theorem acquire_api_calls_le (maxCalls : ℕ) (s : RateState) (now : ℚ)
    (hpos : 1 ≤ maxCalls) : (acquire maxCalls s now).2.api_calls ≤ maxCalls := by
  simp only [acquire]
  by_cases h1 : now - s.reset_time ≥ 60
  · rw [if_pos h1, if_neg (by simp; omega)]
    simpa using hpos
  · rw [if_neg h1]
    by_cases h2 : s.api_calls ≥ maxCalls
    · rw [if_pos h2, if_pos (by have := not_le.mp h1; linarith)]
      simpa using hpos
    · rw [if_neg h2]
      simpa using Nat.succ_le_of_lt (not_le.mp h2)

/-- C2 witness: the counter bound at the Alpha Vantage ceiling on a
freshly created limiter. -/
theorem acquire_api_calls_le_witness :
    1 ≤ 5 ∧ (acquire 5 ⟨0, 0⟩ 0).2.api_calls ≤ 5 :=
  ⟨by decide, acquire_api_calls_le 5 ⟨0, 0⟩ 0 (by decide)⟩

/-! ### C7 — total exhaustion returns an explicit absence result -/

/-- C7: when every tier fails — no cache entry of any age under the derived
key, an empty persistent-store query, and all live calls erroring (for B3
the scrape too) — both fetch entry points return None, never a
partially-populated or zero-filled record. -/
theorem exhausted_fetch_returns_none (envA : AVEnv) (envB : B3Env)
    (cacheDirA symbol interval outputsize cacheDirB symbol0 : String)
    (sd ed : Option String) (maxA maxB : ℚ)
    (hA1 : envA.cache (av_get_cache_path cacheDirA (av_select_function interval)
      symbol (some interval) (some outputsize)) = none)
    (hA2 : envA.api = none)
    (hB1 : envB.cache (b3_get_cache_path cacheDirB "stocks" (strToUpper symbol0)) = none)
    (hB2 : load_from_database envB.db (some (strToUpper symbol0)) sd ed = [])
    (hB3 : envB.api = .bad) (hB4 : envB.scrape = none) :
    (av_get_stock_data envA cacheDirA symbol interval outputsize true maxA).1 = none ∧
    (b3_get_stock_data envB cacheDirB symbol0 sd ed true maxB).1 = none := by
  constructor
  · simp only [av_get_stock_data, hA1, hA2, load_from_cache, if_true]
  · simp only [b3_get_stock_data, hB1, hB2, hB3, hB4, load_from_cache, if_true,
      List.isEmpty_nil, if_pos]

/-- C7 witness: concrete empty environments for both providers. -/
theorem exhausted_fetch_returns_none_witness :
    (AVEnv.mk (fun _ => none) none 0 "T").cache
      (av_get_cache_path "cache" (av_select_function "daily") "IBM"
        (some "daily") (some "full")) = none ∧
    (AVEnv.mk (fun _ => none) none 0 "T").api = none ∧
    (B3Env.mk (fun _ => none) [] .bad none 0 "T").cache
      (b3_get_cache_path "cache" "stocks" (strToUpper "petr4")) = none ∧
    load_from_database (B3Env.mk (fun _ => none) [] .bad none 0 "T").db
      (some (strToUpper "petr4")) none none = [] ∧
    (av_get_stock_data (AVEnv.mk (fun _ => none) none 0 "T") "cache" "IBM"
      "daily" "full" true 24).1 = none ∧
    (b3_get_stock_data (B3Env.mk (fun _ => none) [] .bad none 0 "T") "cache"
      "petr4" none none true 24).1 = none :=
  ⟨rfl, rfl, rfl, rfl,
   (exhausted_fetch_returns_none (AVEnv.mk (fun _ => none) none 0 "T")
      (B3Env.mk (fun _ => none) [] .bad none 0 "T") "cache" "IBM" "daily" "full"
      "cache" "petr4" none none 24 24 rfl rfl rfl rfl rfl rfl).1,
   (exhausted_fetch_returns_none (AVEnv.mk (fun _ => none) none 0 "T")
      (B3Env.mk (fun _ => none) [] .bad none 0 "T") "cache" "IBM" "daily" "full"
      "cache" "petr4" none none 24 24 rfl rfl rfl rfl rfl rfl).2⟩

/-! ### C6 — the stale-cache fallback tier -/

/-- A decoded Alpha Vantage bar used by the concrete environments. -/
def avBar0 : AVBar := ⟨1, 2, 1, 2, 100⟩

/-- A cached raw Alpha Vantage payload with one daily time-series entry. -/
def avPayload0 : AVPayload := ⟨[("Time Series (Daily)", [("2024-01-02", avBar0)])]⟩

/-- An Alpha Vantage environment whose cache holds, under the daily IBM
key, an entry captured at hour 0 while the clock is at hour 25 (age 25 h >
max 24 h), and whose live API call fails. -/
def avEnvStale : AVEnv :=
  ⟨fun p => if p = av_get_cache_path "cache" "TIME_SERIES_DAILY" "IBM"
      (some "daily") (some "full") then some (0, avPayload0) else none,
   none, 25, "T1"⟩

/-- A B3 environment whose cache holds, under the PETR4 stocks key, parsed
records captured at hour 0 while the clock is at hour 25, with an empty
b3_stocks table and both live tiers failing. -/
def b3EnvStale : B3Env :=
  ⟨fun p => if p = b3_get_cache_path "cache" "stocks" "PETR4"
      then some (0, [sampleRow]) else none,
   [], .bad, none, 25, "T1"⟩

/-- C6 (code bug): the stale-cache fallback never fires.  Both providers
call _load_from_cache with max_age_hours = float('inf'); Python raises
OverflowError while constructing timedelta(hours=inf), the blanket except
returns None, and so a fetch whose live tiers fail returns None even
though an expired cache entry exists — against the intent spelled out by
the code's own log messages ("Trying to use cache regardless of age...",
"Using expired cached data..."). -/
theorem stale_cache_fallback_never_fires :
    load_from_cache (avEnvStale.cache (av_get_cache_path "cache"
      "TIME_SERIES_DAILY" "IBM" (some "daily") (some "full"))) 25 .inf = none ∧
    (av_get_stock_data avEnvStale "cache" "IBM" "daily" "full" true 24).1 = none ∧
    (b3_get_stock_data b3EnvStale "cache" "PETR4" none none true 24).1 = none := by
  refine ⟨rfl, ?_, ?_⟩
  · have hc : avEnvStale.cache (av_get_cache_path "cache" "TIME_SERIES_DAILY"
        "IBM" (some "daily") (some "full")) = some (0, avPayload0) := by decide
    have hsel : av_select_function "daily" = "TIME_SERIES_DAILY" := by decide
    have hnow : avEnvStale.now = (25 : ℚ) := rfl
    have hapi : avEnvStale.api = none := rfl
    simp only [av_get_stock_data, hsel, hc, hnow, hapi, if_true, load_from_cache]
    norm_num
  · have hc : b3EnvStale.cache (b3_get_cache_path "cache" "stocks"
        (strToUpper "PETR4")) = some (0, [sampleRow]) := by decide
    have hnow : b3EnvStale.now = (25 : ℚ) := rfl
    have hapi : b3EnvStale.api = .bad := rfl
    have hscr : b3EnvStale.scrape = none := rfl
    have hdb : load_from_database b3EnvStale.db (some (strToUpper "PETR4"))
        none none = [] := rfl
    simp only [b3_get_stock_data, hc, hnow, hapi, hscr, hdb, if_true,
      List.isEmpty_nil, load_from_cache]
    norm_num

/-! ### C3 — B3 tier order with a successful scrape -/

/-- C3: for a B3 fetch with a fresh-cache miss, an empty persistent-store
query and a failing live JSON call, when the HTML scrape succeeds with a
non-empty quote table, get_stock_data returns the records normalized from
the scraped data, and those records are stored in the cache file (under
the derived key, stamped with the capture time) and appended to the
b3_stocks table before returning. -/
theorem b3_scrape_success_write_through (env : B3Env) (cacheDir symbol0 : String)
    (sd ed : Option String) (maxAge : ℚ) (quotes : List B3Quote)
    (h1 : load_from_cache (env.cache (b3_get_cache_path cacheDir "stocks"
      (strToUpper symbol0))) env.now (.fin maxAge) = none)
    (h2 : load_from_database env.db (some (strToUpper symbol0)) sd ed = [])
    (h3 : env.api = .bad) (h4 : env.scrape = some quotes) (h5 : quotes ≠ []) :
    (b3_get_stock_data env cacheDir symbol0 sd ed true maxAge).1 =
      b3_parse_stock_data ⟨some quotes⟩ (strToUpper symbol0) env.nowIso ∧
    ∃ rows,
      b3_parse_stock_data ⟨some quotes⟩ (strToUpper symbol0) env.nowIso = some rows ∧
      (b3_get_stock_data env cacheDir symbol0 sd ed true maxAge).2.cache
        (b3_get_cache_path cacheDir "stocks" (strToUpper symbol0)) =
        some (env.now, rows) ∧
      (b3_get_stock_data env cacheDir symbol0 sd ed true maxAge).2.db =
        env.db ++ rows := by
  cases quotes with
  | nil => exact absurd rfl h5
  | cons q qs =>
    simp only [b3_get_stock_data, h1, h2, h3, h4, List.isEmpty_nil, if_true,
      b3_write_through, b3_parse_stock_data, b3_save_to_cache, save_to_database]
    exact ⟨trivial, _, rfl, rfl, rfl⟩

/-- A scraped quote used by concrete environments. -/
def b3Quote0 : B3Quote := ⟨"2024-01-02", 1, 2, 1, 2, 0⟩

/-- A B3 environment with empty cache and table, failing JSON API and a
successful one-row scrape. -/
def b3EnvScrape : B3Env := ⟨fun _ => none, [], .bad, some [b3Quote0], 0, "T0"⟩

/-- C3 witness: the tier-order theorem applied to the concrete scrape
environment. -/
theorem b3_scrape_success_write_through_witness :
    ([b3Quote0] ≠ ([] : List B3Quote)) ∧
    ((b3_get_stock_data b3EnvScrape "cache" "petr4" none none true 24).1 =
      b3_parse_stock_data ⟨some [b3Quote0]⟩ (strToUpper "petr4") "T0" ∧
    ∃ rows,
      b3_parse_stock_data ⟨some [b3Quote0]⟩ (strToUpper "petr4") "T0" = some rows ∧
      (b3_get_stock_data b3EnvScrape "cache" "petr4" none none true 24).2.cache
        (b3_get_cache_path "cache" "stocks" (strToUpper "petr4")) =
        some (0, rows) ∧
      (b3_get_stock_data b3EnvScrape "cache" "petr4" none none true 24).2.db =
        [] ++ rows) :=
  ⟨by decide,
   b3_scrape_success_write_through b3EnvScrape "cache" "petr4" none none 24
     [b3Quote0] rfl rfl rfl rfl (by decide)⟩

/-! ### C9 — unknown interval strings -/

/-- An Alpha Vantage environment whose cache holds a fresh (age 0) entry
under the daily IBM key, and whose live API call fails. -/
def avEnvFresh : AVEnv :=
  ⟨fun p => if p = av_get_cache_path "cache" "TIME_SERIES_DAILY" "IBM"
      (some "daily") (some "full") then some (0, avPayload0) else none,
   none, 0, "T0"⟩

/-- C9 counterexample: an unknown interval ("hourly") does select the
TIME_SERIES_DAILY function, but the fetch does not behave exactly as if
interval were "daily": the cache key embeds the raw interval string, so
with a fresh cached daily entry (and a failing live call) the "daily"
fetch returns the cached data while the "hourly" fetch returns None. -/
theorem av_unknown_interval_not_like_daily :
    av_select_function "hourly" = "TIME_SERIES_DAILY" ∧
    av_get_cache_path "cache" (av_select_function "hourly") "IBM"
      (some "hourly") (some "full") ≠
      av_get_cache_path "cache" (av_select_function "daily") "IBM"
        (some "daily") (some "full") ∧
    (av_get_stock_data avEnvFresh "cache" "IBM" "hourly" "full" true 24).1 = none ∧
    (av_get_stock_data avEnvFresh "cache" "IBM" "daily" "full" true 24).1 ≠ none := by
  refine ⟨by decide, by decide, by decide, ?_⟩
  have hc : avEnvFresh.cache (av_get_cache_path "cache" "TIME_SERIES_DAILY"
      "IBM" (some "daily") (some "full")) = some (0, avPayload0) := by decide
  have hsel : av_select_function "daily" = "TIME_SERIES_DAILY" := by decide
  have hnow : avEnvFresh.now = (0 : ℚ) := rfl
  simp only [av_get_stock_data, hsel, hc, hnow, if_true, load_from_cache]
  norm_num
  decide

/-- C9 (amended): for every interval whose lowercase form is none of
"daily", "weekly", "monthly", get_stock_data selects the TIME_SERIES_DAILY
function instead of rejecting the interval; but the resulting fetch is not
identical to an interval="daily" fetch, because the cache key embeds the
raw interval string. -/
theorem av_select_function_defaults_to_daily (interval : String)
    (h : strToLower interval ∉ ["daily", "weekly", "monthly"]) :
    av_select_function interval = "TIME_SERIES_DAILY" := by
  simp only [List.mem_cons, not_or] at h
  obtain ⟨h1, h2, h3, -⟩ := h
  simp [av_select_function, av_function_map, List.lookup,
    beq_eq_false_iff_ne.mpr h1, beq_eq_false_iff_ne.mpr h2,
    beq_eq_false_iff_ne.mpr h3]

/-- C9 witness: the default-function theorem applied to "hourly". -/
theorem av_select_function_defaults_to_daily_witness :
    strToLower "hourly" ∉ ["daily", "weekly", "monthly"] ∧
    av_select_function "hourly" = "TIME_SERIES_DAILY" :=
  ⟨by decide, av_select_function_defaults_to_daily "hourly" (by decide)⟩

/-! ### C10 — use_cache = False touches no cache file -/

/-- Helper: with use_cache = false the Alpha Vantage fetch leaves its
environment (in particular the cache) unchanged, its result does not
depend on the cache contents, and a failing live call yields None
directly. -/
theorem av_uncached_frame (env : AVEnv) (c2 : String → Option (ℚ × AVPayload))
    (cacheDir symbol interval outputsize : String) (maxAge : ℚ) :
    (av_get_stock_data env cacheDir symbol interval outputsize false maxAge).2 = env ∧
    (av_get_stock_data { env with cache := c2 } cacheDir symbol interval
      outputsize false maxAge).1 =
      (av_get_stock_data env cacheDir symbol interval outputsize false maxAge).1 ∧
    (env.api = none →
      (av_get_stock_data env cacheDir symbol interval outputsize false maxAge).1
        = none) := by
  cases env with
  | mk cache api now iso => cases api <;> simp [av_get_stock_data]

/-- Helper: with use_cache = false the B3 fetch leaves the cache unchanged
(only the b3_stocks table may grow), its result does not depend on the
cache contents, and when the table query is empty and both live tiers
fail it yields None directly, never consulting the stale-cache tier. -/
theorem b3_uncached_frame (env : B3Env) (c2 : String → Option (ℚ × List MarketRow))
    (cacheDir symbol0 : String) (sd ed : Option String) (maxAge : ℚ) :
    (b3_get_stock_data env cacheDir symbol0 sd ed false maxAge).2.cache = env.cache ∧
    (b3_get_stock_data { env with cache := c2 } cacheDir symbol0 sd ed false
      maxAge).1 =
      (b3_get_stock_data env cacheDir symbol0 sd ed false maxAge).1 ∧
    (env.api = .bad → env.scrape = none →
      load_from_database env.db (some (strToUpper symbol0)) sd ed = [] →
      (b3_get_stock_data env cacheDir symbol0 sd ed false maxAge).1 = none) := by
  cases env with
  | mk cache db api scrape now iso =>
    by_cases he : (load_from_database db (some (strToUpper symbol0)) sd ed).isEmpty
    · cases api with
      | bad =>
        cases scrape with
        | none => simp [b3_get_stock_data, he]
        | some quotes =>
          cases hp : b3_parse_stock_data ⟨some quotes⟩ (strToUpper symbol0) iso <;>
            simp [b3_get_stock_data, b3_write_through, he, hp, save_to_database]
      | good payload =>
        cases hp : b3_parse_stock_data payload (strToUpper symbol0) iso <;>
          simp [b3_get_stock_data, b3_write_through, he, hp, save_to_database]
    · refine ⟨by simp [b3_get_stock_data, he], by simp [b3_get_stock_data, he], ?_⟩
      intro _ _ h3
      rw [h3] at he
      exact absurd List.isEmpty_nil he

/-- C10: a fetch invoked with use_cache = False reads and writes no cache
file: the Alpha Vantage fetch returns its environment unchanged and the B3
fetch its cache unchanged, both results are independent of the cache
contents, and on total live failure both return None directly without
consulting the stale-cache fallback. -/
theorem fetch_without_cache_frame (envA : AVEnv)
    (cA : String → Option (ℚ × AVPayload))
    (cacheDirA symbol interval outputsize : String) (maxA : ℚ)
    (envB : B3Env) (cB : String → Option (ℚ × List MarketRow))
    (cacheDirB symbol0 : String) (sd ed : Option String) (maxB : ℚ) :
    ((av_get_stock_data envA cacheDirA symbol interval outputsize false maxA).2
        = envA ∧
      (av_get_stock_data { envA with cache := cA } cacheDirA symbol interval
        outputsize false maxA).1 =
        (av_get_stock_data envA cacheDirA symbol interval outputsize false maxA).1 ∧
      (envA.api = none →
        (av_get_stock_data envA cacheDirA symbol interval outputsize false maxA).1
          = none)) ∧
    ((b3_get_stock_data envB cacheDirB symbol0 sd ed false maxB).2.cache
        = envB.cache ∧
      (b3_get_stock_data { envB with cache := cB } cacheDirB symbol0 sd ed false
        maxB).1 =
        (b3_get_stock_data envB cacheDirB symbol0 sd ed false maxB).1 ∧
      (envB.api = .bad → envB.scrape = none →
        load_from_database envB.db (some (strToUpper symbol0)) sd ed = [] →
        (b3_get_stock_data envB cacheDirB symbol0 sd ed false maxB).1 = none)) :=
  ⟨av_uncached_frame envA cA cacheDirA symbol interval outputsize maxA,
   b3_uncached_frame envB cB cacheDirB symbol0 sd ed maxB⟩

/-- An Alpha Vantage environment with a populated cache and failing live
call, used to witness that use_cache = False ignores the cache. -/
def avEnvCachedFail : AVEnv := ⟨fun _ => some (0, avPayload0), none, 0, "T0"⟩

/-- A B3 environment with a populated cache, empty table and failing live
tiers, used to witness that use_cache = False ignores the cache. -/
def b3EnvCachedFail : B3Env :=
  ⟨fun _ => some (0, [sampleRow]), [], .bad, none, 0, "T0"⟩

/-- C10 witness: with use_cache = False, both fetches return None on live
failure even though the caches hold entries, and leave the caches
untouched. -/
theorem fetch_without_cache_frame_witness :
    avEnvCachedFail.api = none ∧
    b3EnvCachedFail.api = .bad ∧ b3EnvCachedFail.scrape = none ∧
    load_from_database b3EnvCachedFail.db (some (strToUpper "petr4")) none none
      = [] ∧
    (av_get_stock_data avEnvCachedFail "cache" "IBM" "daily" "full" false 24).1
      = none ∧
    (av_get_stock_data avEnvCachedFail "cache" "IBM" "daily" "full" false 24).2
      = avEnvCachedFail ∧
    (b3_get_stock_data b3EnvCachedFail "cache" "petr4" none none false 24).1
      = none ∧
    (b3_get_stock_data b3EnvCachedFail "cache" "petr4" none none false 24).2.cache
      = b3EnvCachedFail.cache :=
  ⟨rfl, rfl, rfl, rfl,
   (fetch_without_cache_frame avEnvCachedFail (fun _ => none) "cache" "IBM"
      "daily" "full" 24 b3EnvCachedFail (fun _ => none) "cache" "petr4" none
      none 24).1.2.2 rfl,
   (fetch_without_cache_frame avEnvCachedFail (fun _ => none) "cache" "IBM"
      "daily" "full" 24 b3EnvCachedFail (fun _ => none) "cache" "petr4" none
      none 24).1.1,
   (fetch_without_cache_frame avEnvCachedFail (fun _ => none) "cache" "IBM"
      "daily" "full" 24 b3EnvCachedFail (fun _ => none) "cache" "petr4" none
      none 24).2.2.2 rfl rfl rfl,
   (fetch_without_cache_frame avEnvCachedFail (fun _ => none) "cache" "IBM"
      "daily" "full" 24 b3EnvCachedFail (fun _ => none) "cache" "petr4" none
      none 24).2.1⟩

end FinBot
